import Mathlib

/-!
Shallow embedding of `custom_components/comfoconnect/config_flow.py`:
the ComfoConnect config-flow wizard (bridge discovery, manual host entry,
PIN validation, registration handshake, entry creation).

The external library `aiocomfoconnect` and the Home Assistant framework are
modelled as an environment that fixes the outcome of each external call
(success, `AioComfoConnectTimeout`, or `ComfoConnectNotAllowed`), the set of
bridges each discovery call returns, the random UUID generated, and the
behaviour of Python's `int` coercion.  Each wizard step is a function from
this environment plus the flow's state and the submitted form input to a
final state, the trace of bridge calls made, and an outcome (a returned
`FlowResult` or a propagating exception).
-/

namespace ComfoConnect

/-- Outcome of one call into the aiocomfoconnect library. -/
inductive CallResult where
  | ok
  | timeout
  | notAllowed
deriving DecidableEq, Repr

/-- Exceptions that can propagate out of a wizard step. `pythonError` stands
for a generic Python runtime error (e.g. a failed dict lookup). -/
inductive Exc where
  | aioComfoConnectTimeout
  | comfoConnectNotAllowed
  | pythonError
deriving DecidableEq, Repr

/-- A discovered `aiocomfoconnect.Bridge`, reduced to the two attributes the
flow reads: `host` and `uuid`. -/
structure Bridge where
  host : String
  uuid : String
deriving DecidableEq, Repr

/-- Argument passed as the PIN to `cmd_register_app`: the user-supplied pin is
an `int`, while `DEFAULT_PIN` is the string literal `"0000"`. -/
inductive PinArg where
  | ofInt (n : Int)
  | ofStr (s : String)
deriving DecidableEq, Repr

/-- One call on the bridge connection, as made by `_register`. -/
inductive Call where
  | connect (local_uuid : String)
  | registerApp (local_uuid : String) (name : String) (pin : PinArg)
  | startSession
  | disconnect
deriving DecidableEq, Repr

/-- `homeassistant.const.CONF_HOST`. -/
def CONF_HOST : String := "host"

/-- `homeassistant.const.CONF_PIN`. -/
def CONF_PIN : String := "pin"

/-- Modelled from the spec: `CONF_UUID` is imported from the integration's
`.const` module, which is not part of the sources; the spec names the
persisted fields host/uuid/local-uuid, so its value is taken to be "uuid". -/
def CONF_UUID : String := "uuid"

/-- Modelled from the spec: `CONF_LOCAL_UUID` is imported from the
integration's `.const` module, which is not part of the sources; the spec
names the persisted fields host/uuid/local-uuid, so its value is taken to be
"local_uuid". -/
def CONF_LOCAL_UUID : String := "local_uuid"

/-- `DEFAULT_PIN = "0000"`. -/
def DEFAULT_PIN : String := "0000"

/-- `COMFOCONNECT_MANUAL_BRIDGE_ID = "manual"`. -/
def COMFOCONNECT_MANUAL_BRIDGE_ID : String := "manual"

/-- The `FlowResult` values this flow can return: a shown form (step id plus
its `errors` dict), a created config entry (title plus its `data` dict, both
dicts as association lists), or an abort. -/
inductive FlowResult where
  | showForm (stepId : String) (errors : List (String × String))
  | createEntry (title : String) (data : List (String × String))
  | abort (reason : String)
deriving DecidableEq, Repr

/-- The flow's source context, as far as the code inspects it
(`self.context.get("source") == SOURCE_REAUTH`). -/
inductive Source where
  | user
  | imported
  | reauth
deriving DecidableEq, Repr

/-- The mutable state of a `ComfoConnectConfigFlow` instance together with
the framework-held pieces it reads: the configured unique ids
(`_async_current_ids`), the flow's own unique id (`async_set_unique_id`),
and the flow source. -/
structure FlowState where
  bridge : Option Bridge
  local_uuid : Option String
  discovered_bridges : List (String × Bridge)
  current_ids : List String
  unique_id : Option String
  source : Source
deriving DecidableEq, Repr

/-- The environment: outcomes of the external calls a single wizard step can
make, the discovery results, the generated UUID, the hub's location name and
Python's `int` coercion. Each call site of `_register` has its own outcome
field, in source order. -/
structure Env where
  random_uuid_hex : String
  location_name : String
  connect : CallResult
  cmd_register_app_user : CallResult
  cmd_start_session_1 : CallResult
  cmd_register_app_default : CallResult
  cmd_start_session_2 : CallResult
  discover_bridges_all : List Bridge
  discover_bridges_host : String → List Bridge
  py_int : String → Option Int

/-- Result of running one wizard step: the flow state afterwards, the trace
of bridge calls made, and either a returned `FlowResult` or an exception. -/
inductive StepOutcome where
  | ret (r : FlowResult)
  | exc (e : Exc)
deriving DecidableEq, Repr

structure StepRun where
  state : FlowState
  trace : List Call
  outcome : StepOutcome
deriving DecidableEq, Repr

/-- `f"Home Assistant ({self.hass.config.location_name})"`. -/
def appName (env : Env) : String := "Home Assistant (" ++ env.location_name ++ ")"

/-- `PIN_VALIDATOR = vol.All(vol.Coerce(int), vol.Range(min=0, max=9999))`,
parameterised by Python's `int` coercion; `none` models `vol.Invalid`. -/
def PIN_VALIDATOR (py_int : String → Option Int) (s : String) : Option Int :=
  match py_int s with
  | none => none
  | some n => if 0 ≤ n ∧ n ≤ 9999 then some n else none

/-- Result of `_parse_optional_pin`: a pin value (possibly absent), or the
`invalid_pin` error recorded in `errors`. -/
inductive PinParse where
  | pin (p : Option Int)
  | invalid
deriving DecidableEq, Repr

/-- `_parse_optional_pin`: empty input means no PIN; otherwise the input must
pass `PIN_VALIDATOR` or the `invalid_pin` error is set. -/
def parse_optional_pin (py_int : String → Option Int) (pin_input : String) :
    PinParse :=
  if pin_input = "" then .pin none
  else
    match PIN_VALIDATOR py_int pin_input with
    | none => .invalid
    | some p => .pin (some p)

/-- Outcome of the `try` body of `_register` (before the `finally`
disconnect): fall through to entry creation, return a `FlowResult` early, or
raise. -/
inductive BodyOut where
  | finish
  | earlyReturn (r : FlowResult)
  | raiseExc (e : Exc)
deriving DecidableEq, Repr

/-- `async_step_enter_pin` called from `_register` with an empty
`user_input`: it just shows the `enter_pin` form with the given errors. -/
def enterPinForm (errors : List (String × String)) : FlowResult :=
  .showForm "enter_pin" errors

/-- The session part of `_register`'s try body: `cmd_start_session(True)`,
and on `ComfoConnectNotAllowed` either the PIN-entry branch (a user PIN was
supplied) or the default-PIN registration followed by a second
`cmd_start_session(True)`. Returns the calls made and the body outcome. -/
def sessionBody (env : Env) (lu : String) (pin : Option Int) :
    List Call × BodyOut :=
  match env.cmd_start_session_1 with
  | .ok => ([.startSession], .finish)
  | .timeout => ([.startSession], .raiseExc .aioComfoConnectTimeout)
  | .notAllowed =>
    match pin with
    | some _ =>
      ([.startSession], .earlyReturn (enterPinForm [("base", "invalid_pin")]))
    | none =>
      let reg := Call.registerApp lu (appName env) (.ofStr DEFAULT_PIN)
      match env.cmd_register_app_default with
      | .notAllowed => ([.startSession, reg], .earlyReturn (enterPinForm []))
      | .timeout => ([.startSession, reg], .raiseExc .aioComfoConnectTimeout)
      | .ok =>
        match env.cmd_start_session_2 with
        | .ok => ([.startSession, reg, .startSession], .finish)
        | .timeout =>
          ([.startSession, reg, .startSession],
            .raiseExc .aioComfoConnectTimeout)
        | .notAllowed =>
          ([.startSession, reg, .startSession],
            .raiseExc .comfoConnectNotAllowed)

/-- The whole try body of `_register`: the optional `cmd_register_app` with
the user PIN (its `ComfoConnectNotAllowed` is swallowed), then the session
part. -/
def registerBody (env : Env) (lu : String) (pin : Option Int) :
    List Call × BodyOut :=
  match pin with
  | none => sessionBody env lu none
  | some p =>
    let reg := Call.registerApp lu (appName env) (.ofInt p)
    match env.cmd_register_app_user with
    | .timeout => ([reg], .raiseExc .aioComfoConnectTimeout)
    | _ => ((reg :: (sessionBody env lu pin).1), (sessionBody env lu pin).2)

/-- `_register(pin)`: generate `local_uuid` when absent, `connect` (outside
the try, so a connect failure propagates without a disconnect), run the try
body with a `finally` disconnect, then either the reauth abort or
`async_create_entry` with title `bridge.host` and data
`{host, uuid, local_uuid}`. -/
def register (env : Env) (st0 : FlowState) (pin : Option Int) : StepRun :=
  let lu := st0.local_uuid.getD env.random_uuid_hex
  let st : FlowState := { st0 with local_uuid := some lu }
  match st.bridge with
  | none => { state := st, trace := [], outcome := .exc .pythonError }
  | some b =>
    match env.connect with
    | .timeout =>
      { state := st, trace := [.connect lu],
        outcome := .exc .aioComfoConnectTimeout }
    | .notAllowed =>
      { state := st, trace := [.connect lu],
        outcome := .exc .comfoConnectNotAllowed }
    | .ok =>
      let body := registerBody env lu pin
      let trace := Call.connect lu :: body.1 ++ [Call.disconnect]
      match body.2 with
      | .raiseExc e => { state := st, trace := trace, outcome := .exc e }
      | .earlyReturn r => { state := st, trace := trace, outcome := .ret r }
      | .finish =>
        if st.source = .reauth then
          { state := st, trace := trace,
            outcome := .ret (.abort "reauth_successful") }
        else
          { state := st, trace := trace,
            outcome := .ret (.createEntry b.host
              [(CONF_HOST, b.host), (CONF_UUID, b.uuid),
                (CONF_LOCAL_UUID, lu)]) }

/-- The dict comprehension at the end of `async_step_user`:
`{bridge.uuid: bridge for bridge in bridges if bridge.uuid not in current_ids}`. -/
def filterDiscovered (bridges : List Bridge) (ids : List String) :
    List (String × Bridge) :=
  (bridges.filter (fun b => b.uuid ∉ ids)).map (fun b => (b.uuid, b))

/-- The fall-through tail of `async_step_user`: rediscover bridges, filter
out the configured ones, store them, and show the `user` form with the
accumulated errors. `tr` is the trace of bridge calls the step already
made before falling through. -/
def rediscoverAndShowUserForm (env : Env) (st : FlowState) (tr : List Call)
    (errors : List (String × String)) : StepRun :=
  let db := filterDiscovered env.discover_bridges_all st.current_ids
  { state := { st with discovered_bridges := db }, trace := tr,
    outcome := .ret (.showForm "user" errors) }

/-- The form input of `async_step_manual`: the host value under `CONF_HOST`
(which may be `None`) and the raw PIN string, `""` when absent
(`user_input.get(CONF_PIN, "")`). -/
structure ManualInput where
  host : Option String
  pin_input : String
deriving DecidableEq, Repr

/-- `async_step_manual`: discover the bridge at the given host, reject an
unknown host, refuse a bridge that is already configured, validate the
optional PIN, then `_register` with it, mapping a timeout to the
`cannot_connect` error on the re-shown manual form. -/
def step_manual (env : Env) (st : FlowState) (input : Option ManualInput) :
    StepRun :=
  match input with
  | some inp =>
    match inp.host with
    | some h =>
      match env.discover_bridges_host h with
      | [] =>
        { state := st, trace := [],
          outcome := .ret (.showForm "manual" [("base", "invalid_host")]) }
      | b :: _ =>
        let st1 : FlowState := { st with bridge := some b, unique_id := some b.uuid }
        if b.uuid ∈ st1.current_ids then
          { state := st1, trace := [],
            outcome := .ret (.abort "already_configured") }
        else
          match parse_optional_pin env.py_int inp.pin_input with
          | .invalid =>
            { state := st1, trace := [],
              outcome := .ret (.showForm "manual" [(CONF_PIN, "invalid_pin")]) }
          | .pin p =>
            let r := register env st1 p
            match r.outcome with
            | .exc .aioComfoConnectTimeout =>
              { state := r.state, trace := r.trace,
                outcome := .ret (.showForm "manual" [("base", "cannot_connect")]) }
            | _ => r
    | none =>
      { state := st, trace := [], outcome := .ret (.showForm "manual" []) }
  | none =>
    { state := st, trace := [], outcome := .ret (.showForm "manual" []) }

/-- `async_step_user`. The input is `none` when the step is entered without
form data, `some none` when a form was submitted whose `CONF_UUID` value is
`None`, and `some (some sel)` for a submitted selection `sel`. A selection
equal to the manual sentinel goes to `async_step_manual()`; a discovered
bridge's uuid is looked up, set as unique id, refused when already
configured, and otherwise registered with `pin=None`, a timeout re-showing
the user form with `cannot_connect`. -/
def step_user (env : Env) (st : FlowState) (input : Option (Option String)) :
    StepRun :=
  match input with
  | some (some sel) =>
    if sel = COMFOCONNECT_MANUAL_BRIDGE_ID then
      step_manual env st none
    else
      match st.discovered_bridges.lookup sel with
      | none => { state := st, trace := [], outcome := .exc .pythonError }
      | some b =>
        let st1 : FlowState := { st with bridge := some b, unique_id := some b.uuid }
        if b.uuid ∈ st1.current_ids then
          { state := st1, trace := [],
            outcome := .ret (.abort "already_configured") }
        else
          let r := register env st1 none
          match r.outcome with
          | .exc .aioComfoConnectTimeout =>
            rediscoverAndShowUserForm env r.state r.trace
              [("base", "cannot_connect")]
          | _ => r
  | some none => rediscoverAndShowUserForm env st [] []
  | none => rediscoverAndShowUserForm env st [] []

/-- `async_step_enter_pin`: when the input carries a PIN (already validated
to an `int` by the form schema's `PIN_VALIDATOR`), `_register` with it,
mapping a timeout to `cannot_connect` on the re-shown form; otherwise show
the `enter_pin` form with the given errors. -/
def step_enter_pin (env : Env) (st : FlowState) (input : Option Int)
    (errors : List (String × String)) : StepRun :=
  match input with
  | some p =>
    let r := register env st (some p)
    match r.outcome with
    | .exc .aioComfoConnectTimeout =>
      { state := r.state, trace := r.trace,
        outcome := .ret (.showForm "enter_pin" [("base", "cannot_connect")]) }
    | _ => r
  | none =>
    { state := st, trace := [], outcome := .ret (.showForm "enter_pin" errors) }

/-- The handshake of one `_register` run completes without an unhandled
error and without branching to the PIN-entry step: the connect succeeds, a
user-PIN registration does not time out, and either the first session start
succeeds, or (with no user PIN) it is refused, the default-PIN registration
succeeds and the second session start succeeds. -/
def handshakeSucceeds (env : Env) (pin : Option Int) : Prop :=
  env.connect = .ok ∧
  (pin.isSome → env.cmd_register_app_user ≠ .timeout) ∧
  (env.cmd_start_session_1 = .ok ∨
    (pin = none ∧ env.cmd_start_session_1 = .notAllowed ∧
      env.cmd_register_app_default = .ok ∧ env.cmd_start_session_2 = .ok))

instance (env : Env) (pin : Option Int) : Decidable (handshakeSucceeds env pin) := by
  unfold handshakeSucceeds
  infer_instance

/-- Digit accumulator for `py_int_model`. -/
def digitsAux : List Char → Nat → Option Nat
  | [], acc => some acc
  | c :: cs, acc =>
    if 48 ≤ c.toNat ∧ c.toNat ≤ 57 then digitsAux cs (acc * 10 + (c.toNat - 48))
    else none

/-- A simple decimal model of Python's `int` coercion (optional minus sign
followed by digits), used as the coercion of the concrete environment. -/
def py_int_model (s : String) : Option Int :=
  match s.data with
  | [] => none
  | ['-'] => none
  | '-' :: c :: cs => (digitsAux (c :: cs) 0).map (fun n => -(n : Int))
  | cs => (digitsAux cs 0).map (fun n => (n : Int))

/-- A concrete bridge used to exercise the flow on concrete runs. -/
def bridgeW : Bridge := { host := "192.0.2.10", uuid := "BRIDGEID01" }

/-- A concrete environment in which every external call succeeds; concrete
runs perturb individual call outcomes via record updates. -/
def envW : Env :=
  { random_uuid_hex := "0123456789abcdef"
    location_name := "Home"
    connect := .ok
    cmd_register_app_user := .ok
    cmd_start_session_1 := .ok
    cmd_register_app_default := .ok
    cmd_start_session_2 := .ok
    discover_bridges_all := [bridgeW]
    discover_bridges_host := fun h => if h = bridgeW.host then [bridgeW] else []
    py_int := py_int_model }

/-- A concrete flow state: `bridgeW` selected, nothing configured yet. -/
def stW : FlowState :=
  { bridge := some bridgeW
    local_uuid := none
    discovered_bridges := [(bridgeW.uuid, bridgeW)]
    current_ids := []
    unique_id := none
    source := .user }

lemma registerBody_mem (env : Env) (lu : String) (pin : Option Int) :
    ∀ c ∈ (registerBody env lu pin).1,
      c = Call.startSession ∨
      c = Call.registerApp lu (appName env) (.ofStr DEFAULT_PIN) ∨
      ∃ p, pin = some p ∧ c = Call.registerApp lu (appName env) (.ofInt p) := by
  rcases pin with _ | p <;>
  cases h1 : env.cmd_register_app_user <;>
  cases h2 : env.cmd_start_session_1 <;>
  cases h3 : env.cmd_register_app_default <;>
  cases h4 : env.cmd_start_session_2 <;>
  simp [registerBody, sessionBody, h1, h2, h3, h4]

lemma register_trace (env : Env) (st : FlowState) (b : Bridge) (pin : Option Int)
    (hb : st.bridge = some b) (hc : env.connect = .ok) :
    (register env st pin).trace =
      Call.connect (st.local_uuid.getD env.random_uuid_hex) ::
        (registerBody env (st.local_uuid.getD env.random_uuid_hex) pin).1 ++
        [Call.disconnect] := by
  obtain ⟨br, lu0, db, ci, ui, src⟩ := st
  simp only [FlowState.bridge] at hb
  subst hb
  simp only [register, hc]
  rcases hB : registerBody env (Option.getD lu0 env.random_uuid_hex) pin with ⟨t, o⟩
  cases o <;> cases src <;> simp [hB]

lemma registerBody_earlyReturn (env : Env) (lu : String) (pin : Option Int)
    (r : FlowResult) (h : (registerBody env lu pin).2 = .earlyReturn r) :
    r = .showForm "enter_pin" [("base", "invalid_pin")] ∨
      r = .showForm "enter_pin" [] := by
  rcases pin with _ | p <;>
  cases h1 : env.cmd_register_app_user <;>
  cases h2 : env.cmd_start_session_1 <;>
  cases h3 : env.cmd_register_app_default <;>
  cases h4 : env.cmd_start_session_2 <;>
  simp [registerBody, sessionBody, enterPinForm, h1, h2, h3, h4] at h <;>
  simp [h]

lemma register_state (env : Env) (st : FlowState) (pin : Option Int) :
    (register env st pin).state =
      { st with local_uuid := some (st.local_uuid.getD env.random_uuid_hex) } := by
  obtain ⟨br, lu0, db, ci, ui, src⟩ := st
  rcases br with _ | b
  · simp [register]
  · cases hc : env.connect
    · simp only [register, hc]
      rcases hB : registerBody env (Option.getD lu0 env.random_uuid_hex) pin with ⟨t, o⟩
      cases o <;> cases src <;> simp [hB]
    · simp [register, hc]
    · simp [register, hc]

lemma register_entry_data (env : Env) (st : FlowState) (b : Bridge)
    (pin : Option Int) (t : String) (d : List (String × String))
    (hb : st.bridge = some b)
    (h : (register env st pin).outcome = .ret (.createEntry t d)) :
    t = b.host ∧
      d = [(CONF_HOST, b.host), (CONF_UUID, b.uuid),
        (CONF_LOCAL_UUID, st.local_uuid.getD env.random_uuid_hex)] := by
  obtain ⟨br, lu0, db, ci, ui, src⟩ := st
  simp only [FlowState.bridge] at hb
  subst hb
  cases hc : env.connect <;> simp only [register, hc] at h
  · rcases hB : registerBody env (Option.getD lu0 env.random_uuid_hex) pin with ⟨tb, o⟩
    rw [hB] at h
    cases o with
    | finish =>
      cases src <;> simp at h <;> try exact ⟨h.1.symm, h.2.symm⟩
    | earlyReturn r =>
      have := registerBody_earlyReturn env _ pin r (by rw [hB])
      rcases this with rfl | rfl <;> simp_all
    | raiseExc e => simp_all
  · simp_all
  · simp_all

lemma register_trace_mem (env : Env) (st : FlowState) (b : Bridge)
    (pin : Option Int) (hb : st.bridge = some b) :
    ∀ c ∈ (register env st pin).trace,
      c = Call.connect (st.local_uuid.getD env.random_uuid_hex) ∨
      c = Call.disconnect ∨
      c ∈ (registerBody env (st.local_uuid.getD env.random_uuid_hex) pin).1 := by
  intro c hcmem
  cases hc : env.connect
  · rw [register_trace env st b pin hb hc] at hcmem
    simp at hcmem
    tauto
  · obtain ⟨br, lu0, db, ci, ui, src⟩ := st
    simp only [FlowState.bridge] at hb; subst hb
    simp [register, hc] at hcmem
    simp [hcmem]
  · obtain ⟨br, lu0, db, ci, ui, src⟩ := st
    simp only [FlowState.bridge] at hb; subst hb
    simp [register, hc] at hcmem
    simp [hcmem]

/-- C3: when the registration handshake succeeds (connect, optional
registration and session start all complete without unhandled error) and the
flow is not a reauthentication, `_register` returns exactly one created
config entry, titled with the bridge host, whose data has exactly the fields
host, uuid (the bridge's identifier) and local_uuid (the local identifier
used to register). -/
theorem register_success_creates_entry (env : Env) (st : FlowState) (b : Bridge)
    (pin : Option Int) (hb : st.bridge = some b) (hs : st.source ≠ .reauth)
    (hh : handshakeSucceeds env pin) :
    (register env st pin).outcome =
      .ret (.createEntry b.host
        [(CONF_HOST, b.host), (CONF_UUID, b.uuid),
          (CONF_LOCAL_UUID, st.local_uuid.getD env.random_uuid_hex)]) := by
  obtain ⟨hc, hru, hses⟩ := hh
  obtain ⟨br, lu0, db, ci, ui, src⟩ := st
  simp only [FlowState.bridge] at hb
  subst hb
  simp only [FlowState.source] at hs
  simp only [FlowState.local_uuid]
  rcases hses with h1 | ⟨rfl, h1, h3, h4⟩
  · rcases pin with _ | p
    · simp [register, registerBody, sessionBody, hc, h1, hs]
    · cases h2 : env.cmd_register_app_user
      · simp [register, registerBody, sessionBody, hc, h1, h2, hs]
      · exact absurd h2 (hru (by simp))
      · simp [register, registerBody, sessionBody, hc, h1, h2, hs]
  · simp [register, registerBody, sessionBody, hc, h1, h3, h4, hs]

/-- Witness for C3 at a concrete run with a user PIN. -/
theorem register_success_creates_entry_witness :
    stW.bridge = some bridgeW ∧ stW.source ≠ .reauth ∧
      handshakeSucceeds envW (some 4321) ∧
      (register envW stW (some 4321)).outcome =
        .ret (.createEntry bridgeW.host
          [(CONF_HOST, bridgeW.host), (CONF_UUID, bridgeW.uuid),
            (CONF_LOCAL_UUID, stW.local_uuid.getD envW.random_uuid_hex)]) :=
  ⟨rfl, by decide, by decide,
    register_success_creates_entry envW stW bridgeW (some 4321) rfl
      (by decide) (by decide)⟩

/-- C5: a registration attempt made with a user-supplied PIN whose session
start is refused by the bridge returns the PIN-entry form with the
`invalid_pin` error instead of completing or raising. -/
theorem register_pin_refused_reprompts (env : Env) (st : FlowState) (b : Bridge)
    (p : Int) (hb : st.bridge = some b) (hc : env.connect = .ok)
    (hr : env.cmd_register_app_user ≠ .timeout)
    (h1 : env.cmd_start_session_1 = .notAllowed) :
    (register env st (some p)).outcome =
      .ret (.showForm "enter_pin" [("base", "invalid_pin")]) := by
  obtain ⟨br, lu0, db, ci, ui, src⟩ := st
  simp only [FlowState.bridge] at hb; subst hb
  cases h2 : env.cmd_register_app_user
  · simp [register, registerBody, sessionBody, enterPinForm, hc, h1, h2]
  · exact absurd h2 hr
  · simp [register, registerBody, sessionBody, enterPinForm, hc, h1, h2]

/-- Witness for C5 at a concrete run. -/
theorem register_pin_refused_reprompts_witness :
    stW.bridge = some bridgeW ∧
      ({ envW with cmd_start_session_1 := .notAllowed } : Env).connect = .ok ∧
      ({ envW with cmd_start_session_1 := .notAllowed } : Env).cmd_register_app_user ≠ .timeout ∧
      ({ envW with cmd_start_session_1 := .notAllowed } : Env).cmd_start_session_1 = .notAllowed ∧
      (register { envW with cmd_start_session_1 := .notAllowed } stW (some 17)).outcome =
        .ret (.showForm "enter_pin" [("base", "invalid_pin")]) :=
  ⟨rfl, rfl, by decide, rfl,
    register_pin_refused_reprompts { envW with cmd_start_session_1 := .notAllowed }
      stW bridgeW 17 rfl rfl (by decide) rfl⟩

/-- C8: on every path of `_register` after a successful connect — normal
completion, a branch to the PIN-entry step, or a propagating exception — the
bridge is disconnected exactly once. -/
theorem register_disconnects_exactly_once (env : Env) (st : FlowState)
    (b : Bridge) (pin : Option Int) (hb : st.bridge = some b)
    (hc : env.connect = .ok) :
    (register env st pin).trace.count Call.disconnect = 1 := by
  rw [register_trace env st b pin hb hc]
  have hnot : Call.disconnect ∉
      (registerBody env (st.local_uuid.getD env.random_uuid_hex) pin).1 := by
    intro hmem
    rcases registerBody_mem env _ pin _ hmem with h | h | ⟨p, hp, h⟩ <;> simp at h
  simp [List.count_cons, List.count_append, List.count_eq_zero.mpr hnot]

/-- Witness for C8 at a concrete run whose session start raises. -/
theorem register_disconnects_exactly_once_witness :
    stW.bridge = some bridgeW ∧
      ({ envW with cmd_start_session_1 := .timeout } : Env).connect = .ok ∧
      (register { envW with cmd_start_session_1 := .timeout } stW none).trace.count
        Call.disconnect = 1 :=
  ⟨rfl, rfl,
    register_disconnects_exactly_once { envW with cmd_start_session_1 := .timeout }
      stW bridgeW none rfl rfl⟩

/-- C10: a registration attempt without a PIN whose session start is refused
registers with the default PIN "0000"; if that succeeds the session start is
retried (two session-start calls in all), and the PIN-entry form with no
error is returned exactly when the default-PIN registration is itself
refused. -/
theorem register_without_pin_tries_default (env : Env) (st : FlowState)
    (b : Bridge) (hb : st.bridge = some b) (hc : env.connect = .ok)
    (h1 : env.cmd_start_session_1 = .notAllowed) :
    Call.registerApp (st.local_uuid.getD env.random_uuid_hex) (appName env)
        (.ofStr DEFAULT_PIN) ∈ (register env st none).trace ∧
      (env.cmd_register_app_default = .ok →
        (register env st none).trace.count Call.startSession = 2) ∧
      ((register env st none).outcome = .ret (.showForm "enter_pin" []) ↔
        env.cmd_register_app_default = .notAllowed) := by
  obtain ⟨br, lu0, db, ci, ui, src⟩ := st
  simp only [FlowState.bridge] at hb; subst hb
  simp only [FlowState.local_uuid]
  cases h3 : env.cmd_register_app_default <;>
  cases h4 : env.cmd_start_session_2 <;>
  cases src <;>
  simp [register, registerBody, sessionBody, enterPinForm, hc, h1, h3, h4,
    List.count_cons, List.count_append]

/-- Witness for C10 at a concrete run where the default PIN is accepted. -/
theorem register_without_pin_tries_default_witness :
    stW.bridge = some bridgeW ∧
      ({ envW with cmd_start_session_1 := .notAllowed } : Env).connect = .ok ∧
      ({ envW with cmd_start_session_1 := .notAllowed } : Env).cmd_start_session_1 = .notAllowed ∧
      (Call.registerApp (stW.local_uuid.getD ({ envW with cmd_start_session_1 := .notAllowed } : Env).random_uuid_hex)
          (appName { envW with cmd_start_session_1 := .notAllowed })
          (.ofStr DEFAULT_PIN) ∈
        (register { envW with cmd_start_session_1 := .notAllowed } stW none).trace ∧
      (({ envW with cmd_start_session_1 := .notAllowed } : Env).cmd_register_app_default = .ok →
        (register { envW with cmd_start_session_1 := .notAllowed } stW none).trace.count
          Call.startSession = 2) ∧
      ((register { envW with cmd_start_session_1 := .notAllowed } stW none).outcome =
          .ret (.showForm "enter_pin" []) ↔
        ({ envW with cmd_start_session_1 := .notAllowed } : Env).cmd_register_app_default =
          .notAllowed)) :=
  ⟨rfl, rfl, rfl,
    register_without_pin_tries_default { envW with cmd_start_session_1 := .notAllowed }
      stW bridgeW rfl rfl rfl⟩

/-- C6: when no local identifier was provided, `_register` generates one
(the random hex UUID), uses that same identifier for the connect and
register calls, and persists it as the local_uuid value of the created
entry. -/
theorem register_generated_uuid_used (env : Env) (st : FlowState) (b : Bridge)
    (pin : Option Int) (hb : st.bridge = some b) (hlu : st.local_uuid = none) :
    (register env st pin).state.local_uuid = some env.random_uuid_hex ∧
      (∀ s, Call.connect s ∈ (register env st pin).trace →
        s = env.random_uuid_hex) ∧
      (∀ s nm pa, Call.registerApp s nm pa ∈ (register env st pin).trace →
        s = env.random_uuid_hex) ∧
      ∀ t d, (register env st pin).outcome = .ret (.createEntry t d) →
        (CONF_LOCAL_UUID, env.random_uuid_hex) ∈ d := by
  refine ⟨?_, ?_, ?_, ?_⟩
  · rw [register_state]; simp [hlu]
  · intro s hs
    rcases register_trace_mem env st b pin hb _ hs with h | h | h
    · rw [hlu] at h; simp at h; exact h
    · simp at h
    · rcases registerBody_mem env _ pin _ h with h' | h' | ⟨p, hp, h'⟩ <;> simp at h'
  · intro s nm pa hmem
    rcases register_trace_mem env st b pin hb _ hmem with h | h | h
    · simp at h
    · simp at h
    · rcases registerBody_mem env _ pin _ h with h' | h' | ⟨p, hp, h'⟩
      · simp at h'
      · rw [hlu] at h'; simp at h'; exact h'.1
      · rw [hlu] at h'; simp at h'; exact h'.1
  · intro t d hout
    obtain ⟨-, rfl⟩ := register_entry_data env st b pin t d hb hout
    simp [hlu]

/-- Witness for C6 at a concrete run. -/
theorem register_generated_uuid_used_witness :
    stW.bridge = some bridgeW ∧ stW.local_uuid = none ∧
      ((register envW stW none).state.local_uuid = some envW.random_uuid_hex ∧
        (∀ s, Call.connect s ∈ (register envW stW none).trace →
          s = envW.random_uuid_hex) ∧
        (∀ s nm pa, Call.registerApp s nm pa ∈ (register envW stW none).trace →
          s = envW.random_uuid_hex) ∧
        ∀ t d, (register envW stW none).outcome = .ret (.createEntry t d) →
          (CONF_LOCAL_UUID, envW.random_uuid_hex) ∈ d) :=
  ⟨rfl, rfl, register_generated_uuid_used envW stW bridgeW none rfl rfl⟩

lemma register_trace_head (env : Env) (st : FlowState) (b : Bridge)
    (pin : Option Int) (hb : st.bridge = some b) :
    (register env st pin).trace.head? =
      some (Call.connect (st.local_uuid.getD env.random_uuid_hex)) := by
  cases hc : env.connect
  · rw [register_trace env st b pin hb hc]; rfl
  · obtain ⟨br, lu0, db, ci, ui, src⟩ := st
    simp only [FlowState.bridge] at hb; subst hb
    simp [register, hc]
  · obtain ⟨br, lu0, db, ci, ui, src⟩ := st
    simp only [FlowState.bridge] at hb; subst hb
    simp [register, hc]

lemma step_user_selected (env : Env) (st : FlowState) (sel : String) (b : Bridge)
    (hsel : sel ≠ COMFOCONNECT_MANUAL_BRIDGE_ID)
    (hlk : st.discovered_bridges.lookup sel = some b)
    (hnew : b.uuid ∉ st.current_ids) :
    (step_user env st (some (some sel))).trace =
        (register env { st with bridge := some b, unique_id := some b.uuid } none).trace ∧
      (step_user env st (some (some sel))).state.bridge = some b ∧
      (step_user env st (some (some sel))).state.unique_id = some b.uuid := by
  rcases ho : (register env { st with bridge := some b, unique_id := some b.uuid } none).outcome with r' | e
  · simp [step_user, hsel, hlk, hnew, ho, register_state]
  · cases e <;>
      simp [step_user, hsel, hlk, hnew, ho, rediscoverAndShowUserForm, register_state]

/-- C4: in the manual step, an empty PIN input yields no PIN and no error; a
non-empty input coerced to an integer is accepted exactly when that integer
is between 0 and 9999; an input that cannot be coerced to an in-range
integer is rejected with the `invalid_pin` error and no registration is
attempted; an accepted (or absent) PIN is the one registration is attempted
with. -/
theorem pin_validation (env : Env) (st : FlowState) (h : String) (s : String)
    (b : Bridge) (rest : List Bridge)
    (hd : env.discover_bridges_host h = b :: rest)
    (hnew : b.uuid ∉ st.current_ids) :
    parse_optional_pin env.py_int "" = .pin none ∧
      (∀ s' n, s' ≠ "" → env.py_int s' = some n →
        (parse_optional_pin env.py_int s' = .pin (some n) ↔ 0 ≤ n ∧ n ≤ 9999)) ∧
      (∀ s', parse_optional_pin env.py_int s' = .invalid ↔
        (s' ≠ "" ∧ ∀ n, env.py_int s' = some n → ¬(0 ≤ n ∧ n ≤ 9999))) ∧
      (parse_optional_pin env.py_int s = .invalid →
        (step_manual env st (some ⟨some h, s⟩)).outcome =
            .ret (.showForm "manual" [(CONF_PIN, "invalid_pin")]) ∧
          (step_manual env st (some ⟨some h, s⟩)).trace = []) ∧
      ∀ p, parse_optional_pin env.py_int s = .pin p →
        (step_manual env st (some ⟨some h, s⟩)).trace =
          (register env { st with bridge := some b, unique_id := some b.uuid } p).trace := by
  refine ⟨?_, ?_, ?_, ?_, ?_⟩
  · simp [parse_optional_pin]
  · intro s' n hne hint
    by_cases hr : 0 ≤ n ∧ n ≤ 9999 <;>
      simp [parse_optional_pin, PIN_VALIDATOR, hne, hint, hr]
  · intro s'
    by_cases hne : s' = ""
    · simp [parse_optional_pin, hne]
    · cases hi : env.py_int s'
      · simp [parse_optional_pin, PIN_VALIDATOR, hne, hi]
      · rename_i n
        by_cases hr : 0 ≤ n ∧ n ≤ 9999 <;>
          simp [parse_optional_pin, PIN_VALIDATOR, hne, hi, hr]
        omega
  · intro hinv
    constructor <;> simp [step_manual, hd, hnew, hinv]
  · intro p hp
    rcases ho : (register env { st with bridge := some b, unique_id := some b.uuid } p).outcome with r' | e
    · simp [step_manual, hd, hnew, hp, ho]
    · cases e <;> simp [step_manual, hd, hnew, hp, ho]

/-- Witness for C4 at the host of `bridgeW` and the unparseable PIN input
"abc". -/
theorem pin_validation_witness :
    envW.discover_bridges_host "192.0.2.10" = bridgeW :: [] ∧
      bridgeW.uuid ∉ stW.current_ids ∧
      (parse_optional_pin envW.py_int "" = .pin none ∧
        (∀ s' n, s' ≠ "" → envW.py_int s' = some n →
          (parse_optional_pin envW.py_int s' = .pin (some n) ↔ 0 ≤ n ∧ n ≤ 9999)) ∧
        (∀ s', parse_optional_pin envW.py_int s' = .invalid ↔
          (s' ≠ "" ∧ ∀ n, envW.py_int s' = some n → ¬(0 ≤ n ∧ n ≤ 9999))) ∧
        (parse_optional_pin envW.py_int "abc" = .invalid →
          (step_manual envW stW (some ⟨some "192.0.2.10", "abc"⟩)).outcome =
              .ret (.showForm "manual" [(CONF_PIN, "invalid_pin")]) ∧
            (step_manual envW stW (some ⟨some "192.0.2.10", "abc"⟩)).trace = []) ∧
        ∀ p, parse_optional_pin envW.py_int "abc" = .pin p →
          (step_manual envW stW (some ⟨some "192.0.2.10", "abc"⟩)).trace =
            (register envW { stW with bridge := some bridgeW, unique_id := some bridgeW.uuid } p).trace) :=
  ⟨by decide, by decide,
    pin_validation envW stW "192.0.2.10" "abc" bridgeW [] (by decide) (by decide)⟩

/-- C7: in the user step, submitting the manual sentinel goes to the manual
host-entry form; submitting a discovered (not-yet-configured) bridge's
identifier sets that bridge as the target, sets its uuid as the flow's
unique id, and proceeds to registration (the first bridge call of the step
is the connect of `_register`). -/
theorem step_user_dispatch (env : Env) (st : FlowState) :
    (step_user env st (some (some COMFOCONNECT_MANUAL_BRIDGE_ID))).outcome =
        .ret (.showForm "manual" []) ∧
      ∀ sel b, sel ≠ COMFOCONNECT_MANUAL_BRIDGE_ID →
        st.discovered_bridges.lookup sel = some b →
        b.uuid ∉ st.current_ids →
        (step_user env st (some (some sel))).state.bridge = some b ∧
          (step_user env st (some (some sel))).state.unique_id = some b.uuid ∧
          (step_user env st (some (some sel))).trace.head? =
            some (Call.connect (st.local_uuid.getD env.random_uuid_hex)) := by
  constructor
  · simp [step_user, step_manual]
  · intro sel b hsel hlk hnew
    obtain ⟨ht, hbr, hui⟩ := step_user_selected env st sel b hsel hlk hnew
    refine ⟨hbr, hui, ?_⟩
    rw [ht, register_trace_head env _ b none rfl]

/-- Witness for C7: selecting `bridgeW`'s identifier in the user step. -/
theorem step_user_dispatch_witness :
    ("BRIDGEID01" : String) ≠ COMFOCONNECT_MANUAL_BRIDGE_ID ∧
      stW.discovered_bridges.lookup "BRIDGEID01" = some bridgeW ∧
      bridgeW.uuid ∉ stW.current_ids ∧
      ((step_user envW stW (some (some "BRIDGEID01"))).state.bridge = some bridgeW ∧
        (step_user envW stW (some (some "BRIDGEID01"))).state.unique_id = some bridgeW.uuid ∧
        (step_user envW stW (some (some "BRIDGEID01"))).trace.head? =
          some (Call.connect (stW.local_uuid.getD envW.random_uuid_hex))) :=
  ⟨by decide, by decide, by decide,
    (step_user_dispatch envW stW).2 "BRIDGEID01" bridgeW (by decide) (by decide)
      (by decide)⟩

/-- C9: the list of discovered bridges offered to the user excludes every
already-configured bridge; the user step and the manual step both set the
selected bridge's identifier as the flow's unique id and abort with
`already_configured`, before any registration call, when that identifier is
already configured. -/
theorem no_duplicate_bridge_config (env : Env) (st : FlowState) :
    (∀ u b, (u, b) ∈ (step_user env st none).state.discovered_bridges →
        b.uuid ∉ st.current_ids) ∧
      (∀ sel b, sel ≠ COMFOCONNECT_MANUAL_BRIDGE_ID →
        st.discovered_bridges.lookup sel = some b →
        b.uuid ∈ st.current_ids →
        (step_user env st (some (some sel))).outcome =
            .ret (.abort "already_configured") ∧
          (step_user env st (some (some sel))).state.unique_id = some b.uuid ∧
          (step_user env st (some (some sel))).trace = []) ∧
      ∀ h ps b rest, env.discover_bridges_host h = b :: rest →
        b.uuid ∈ st.current_ids →
        (step_manual env st (some ⟨some h, ps⟩)).outcome =
            .ret (.abort "already_configured") ∧
          (step_manual env st (some ⟨some h, ps⟩)).state.unique_id = some b.uuid ∧
          (step_manual env st (some ⟨some h, ps⟩)).trace = [] := by
  refine ⟨?_, ?_, ?_⟩
  · intro u b hmem
    simp [step_user, rediscoverAndShowUserForm, filterDiscovered] at hmem
    exact hmem.1.2
  · intro sel b hsel hlk hin
    refine ⟨?_, ?_, ?_⟩ <;> simp [step_user, hsel, hlk, hin]
  · intro h ps b rest hd hin
    refine ⟨?_, ?_, ?_⟩ <;> simp [step_manual, hd, hin]

/-- Witness for C9: `bridgeW` already configured, selected in the user step
and rediscovered in the manual step. -/
theorem no_duplicate_bridge_config_witness :
    ("BRIDGEID01" : String) ≠ COMFOCONNECT_MANUAL_BRIDGE_ID ∧
      ({ stW with current_ids := ["BRIDGEID01"] } : FlowState).discovered_bridges.lookup
          "BRIDGEID01" = some bridgeW ∧
      bridgeW.uuid ∈ ({ stW with current_ids := ["BRIDGEID01"] } : FlowState).current_ids ∧
      envW.discover_bridges_host "192.0.2.10" = bridgeW :: [] ∧
      ((step_user envW { stW with current_ids := ["BRIDGEID01"] }
            (some (some "BRIDGEID01"))).outcome =
          .ret (.abort "already_configured") ∧
        (step_user envW { stW with current_ids := ["BRIDGEID01"] }
            (some (some "BRIDGEID01"))).trace = []) ∧
      ((step_manual envW { stW with current_ids := ["BRIDGEID01"] }
            (some ⟨some "192.0.2.10", ""⟩)).outcome =
          .ret (.abort "already_configured") ∧
        (step_manual envW { stW with current_ids := ["BRIDGEID01"] }
            (some ⟨some "192.0.2.10", ""⟩)).trace = []) :=
  ⟨by decide, by decide, by decide, by decide,
    ⟨((no_duplicate_bridge_config envW { stW with current_ids := ["BRIDGEID01"] }).2.1
        "BRIDGEID01" bridgeW (by decide) (by decide) (by decide)).1,
      ((no_duplicate_bridge_config envW { stW with current_ids := ["BRIDGEID01"] }).2.1
        "BRIDGEID01" bridgeW (by decide) (by decide) (by decide)).2.2⟩,
    ⟨((no_duplicate_bridge_config envW { stW with current_ids := ["BRIDGEID01"] }).2.2
        "192.0.2.10" "" bridgeW [] (by decide) (by decide)).1,
      ((no_duplicate_bridge_config envW { stW with current_ids := ["BRIDGEID01"] }).2.2
        "192.0.2.10" "" bridgeW [] (by decide) (by decide)).2.2⟩⟩

/-- The environment of the C1 counterexample: both session starts refused,
the default-PIN registration accepted. -/
def envRefuse : Env :=
  { envW with cmd_start_session_1 := .notAllowed, cmd_start_session_2 := .notAllowed }

/-- C1 counterexample: in a registration run without a user PIN where the
first session start is refused, the default-PIN registration succeeds and
the retried session start is refused again, the `ComfoConnectNotAllowed`
refusal propagates out of `_register` as an exception instead of the flow
branching to an alternate step or re-showing a form. -/
theorem session_refusal_propagates_counterexample :
    Call.startSession ∈ (register envRefuse stW none).trace ∧
      (register envRefuse stW none).outcome = .exc .comfoConnectNotAllowed := by
  decide

/-- C1 (amended): a timeout raised by the registration attempt re-shows the
current form with `cannot_connect` in the user, manual and PIN-entry steps;
a `ComfoConnectNotAllowed` from the user-PIN registration is swallowed; a
refusal of the first session start always branches to the PIN-entry step;
only the refusal of the retried session start (after a successful
default-PIN registration) propagates. -/
theorem flow_error_branching (env : Env) (st : FlowState) :
    (∀ sel b, sel ≠ COMFOCONNECT_MANUAL_BRIDGE_ID →
      st.discovered_bridges.lookup sel = some b →
      b.uuid ∉ st.current_ids →
      (register env { st with bridge := some b, unique_id := some b.uuid } none).outcome =
          .exc .aioComfoConnectTimeout →
      (step_user env st (some (some sel))).outcome =
        .ret (.showForm "user" [("base", "cannot_connect")])) ∧
      (∀ h ps b rest p, env.discover_bridges_host h = b :: rest →
        b.uuid ∉ st.current_ids →
        parse_optional_pin env.py_int ps = .pin p →
        (register env { st with bridge := some b, unique_id := some b.uuid } p).outcome =
            .exc .aioComfoConnectTimeout →
        (step_manual env st (some ⟨some h, ps⟩)).outcome =
          .ret (.showForm "manual" [("base", "cannot_connect")])) ∧
      (∀ p errs, (register env st (some p)).outcome = .exc .aioComfoConnectTimeout →
        (step_enter_pin env st (some p) errs).outcome =
          .ret (.showForm "enter_pin" [("base", "cannot_connect")])) ∧
      (env.cmd_register_app_user = .notAllowed →
        ∀ p, register env st (some p) =
          register { env with cmd_register_app_user := .ok } st (some p)) ∧
      ∀ b p, st.bridge = some b → env.connect = .ok →
        env.cmd_register_app_user ≠ .timeout →
        env.cmd_start_session_1 = .notAllowed →
        env.cmd_register_app_default = .notAllowed →
        ∃ errs, (register env st p).outcome = .ret (.showForm "enter_pin" errs) := by
  refine ⟨?_, ?_, ?_, ?_, ?_⟩
  · intro sel b hsel hlk hnew hto
    simp [step_user, hsel, hlk, hnew, hto, rediscoverAndShowUserForm]
  · intro h ps b rest p hd hnew hp hto
    simp [step_manual, hd, hnew, hp, hto]
  · intro p errs hto
    simp [step_enter_pin, hto]
  · intro hreg p
    obtain ⟨ru, ln, cn, r1, s1, rdef, s2, dall, dhost, pyi⟩ := env
    simp only [Env.cmd_register_app_user] at hreg
    subst hreg
    obtain ⟨br, lu0, db, ci, ui, src⟩ := st
    rcases br with _ | b
    · rfl
    · cases cn <;> cases s1 <;> cases rdef <;> cases s2 <;> rfl
  · intro b p hb hc hru h1 hdef
    obtain ⟨br, lu0, db, ci, ui, src⟩ := st
    simp only [FlowState.bridge] at hb; subst hb
    rcases p with _ | q
    · exact ⟨[], by simp [register, registerBody, sessionBody, enterPinForm, hc, h1, hdef]⟩
    · cases h2 : env.cmd_register_app_user
      · exact ⟨[("base", "invalid_pin")],
          by simp [register, registerBody, sessionBody, enterPinForm, hc, h1, h2]⟩
      · exact absurd h2 hru
      · exact ⟨[("base", "invalid_pin")],
          by simp [register, registerBody, sessionBody, enterPinForm, hc, h1, h2]⟩

/-- Witness for the amended C1: a connect timeout in the PIN-entry step
re-shows the PIN-entry form with `cannot_connect`. -/
theorem flow_error_branching_witness :
    (register { envW with connect := .timeout } stW (some 7)).outcome =
        .exc .aioComfoConnectTimeout ∧
      (step_enter_pin { envW with connect := .timeout } stW (some 7) []).outcome =
        .ret (.showForm "enter_pin" [("base", "cannot_connect")]) :=
  ⟨by decide,
    (flow_error_branching { envW with connect := .timeout } stW).2.2.1 7 []
      (by decide)⟩

/-- C2 counterexample: a manual-step run supplying the PIN "1234" completes
and writes a record whose keys are exactly host, uuid and local_uuid — the
supplied PIN is not part of the written record. -/
theorem entry_omits_pin_counterexample :
    (step_manual envW stW (some ⟨some "192.0.2.10", "1234"⟩)).outcome =
        .ret (.createEntry "192.0.2.10"
          [("host", "192.0.2.10"), ("uuid", "BRIDGEID01"),
            ("local_uuid", "0123456789abcdef")]) ∧
      CONF_PIN ∉
        ([("host", "192.0.2.10"), ("uuid", "BRIDGEID01"),
          ("local_uuid", "0123456789abcdef")].map Prod.fst) := by
  decide

/-- C2 (amended): the short-lived record carried between wizard steps holds
the host, the device identifier, the local identifier and the optional PIN,
but the record written at the end consists of exactly the host, device
identifier and local identifier — the PIN is not persisted. -/
theorem entry_data_has_no_pin (env : Env) (st : FlowState) (b : Bridge)
    (pin : Option Int) (t : String) (d : List (String × String))
    (hb : st.bridge = some b)
    (h : (register env st pin).outcome = .ret (.createEntry t d)) :
    d = [(CONF_HOST, b.host), (CONF_UUID, b.uuid),
        (CONF_LOCAL_UUID, st.local_uuid.getD env.random_uuid_hex)] ∧
      d.map Prod.fst = [CONF_HOST, CONF_UUID, CONF_LOCAL_UUID] ∧
      CONF_PIN ∉ d.map Prod.fst := by
  obtain ⟨-, rfl⟩ := register_entry_data env st b pin t d hb h
  refine ⟨rfl, rfl, ?_⟩
  simp [CONF_PIN, CONF_HOST, CONF_UUID, CONF_LOCAL_UUID]

/-- Witness for the amended C2 at a concrete run with PIN 1234. -/
theorem entry_data_has_no_pin_witness :
    stW.bridge = some bridgeW ∧
      (register envW stW (some 1234)).outcome =
        .ret (.createEntry "192.0.2.10"
          [("host", "192.0.2.10"), ("uuid", "BRIDGEID01"),
            ("local_uuid", "0123456789abcdef")]) ∧
      (([("host", "192.0.2.10"), ("uuid", "BRIDGEID01"),
          ("local_uuid", "0123456789abcdef")] : List (String × String)) =
          [(CONF_HOST, bridgeW.host), (CONF_UUID, bridgeW.uuid),
            (CONF_LOCAL_UUID, stW.local_uuid.getD envW.random_uuid_hex)] ∧
        [("host", "192.0.2.10"), ("uuid", "BRIDGEID01"),
            ("local_uuid", "0123456789abcdef")].map Prod.fst =
          [CONF_HOST, CONF_UUID, CONF_LOCAL_UUID] ∧
        CONF_PIN ∉
          ([("host", "192.0.2.10"), ("uuid", "BRIDGEID01"),
            ("local_uuid", "0123456789abcdef")].map Prod.fst)) :=
  ⟨rfl, by decide,
    entry_data_has_no_pin envW stW bridgeW (some 1234) "192.0.2.10"
      [("host", "192.0.2.10"), ("uuid", "BRIDGEID01"),
        ("local_uuid", "0123456789abcdef")] rfl (by decide)⟩

end ComfoConnect
